import Mathlib

/-!
Verification of the vedro-unittest adapter (loader + result collector +
outcome translation) against its natural-language specification.

The development shallowly embeds the code of `vedro_unittest/_test_result.py`,
`vedro_unittest/_test_loader.py` and `vedro_unittest/_utils.py`:

* Python exceptions become a small class hierarchy (`ExcClass`, `Exc`) with
  only the classes the adapter constructs or compares against.
* `TestResult` (the result collector) becomes `TestResultState`, a record of
  the three custom outcome buckets, and each `add*` callback becomes a state
  transformer.  The bookkeeping the base `unittest.TestResult` keeps in its
  own `errors` / `failures` lists is outside the adapter's behaviour and is
  not modelled.
* `UnitTestLoader._process_test_result` becomes `processTestResult`, a pure
  function from the collector state to a `TranslationOutcome` that records
  what was raised and which metadata attributes were set on the scenario type.
* Module / class / test objects become records carrying exactly the data the
  loader inspects: the statically resolved class-hook attributes (as
  identities, mirroring `inspect.getattr_static` + `is`), the truthiness of
  `setUpModule` / `tearDownModule`, and the optional `__unittest_skip__` /
  `__unittest_skip_why__` attributes on bound methods and test objects.
* `UnitTestLoader._collect_scenarios` becomes `collectScenarios`, producing
  `ScenarioDesc` records (name, subject, file, optional skip reason, wrapped
  tests), with the loop over per-class suites factored into `classScenarios`.
-/

/-- Identifier of a unittest test (its id / repr); the adapter only carries
these values around, never inspects them. -/
abbrev TestRef := String

/-- The exception classes the adapter constructs or whose hierarchy it relies
on.  `other s` stands for any further user exception class named `s`; every
class other than `baseException` derives from `Exception`. -/
inductive ExcClass where
  | baseException
  | exception
  | assertionError
  | unexpectedSuccessError
  | skipTest
  | other (n : String)
deriving DecidableEq

/-- Proper ancestors of an exception class, outermost last
(mirrors the Python class hierarchy: `UnexpectedSuccessError(AssertionError)`,
`AssertionError(Exception)`, `SkipTest(Exception)`, `Exception(BaseException)`). -/
def ExcClass.ancestors : ExcClass → List ExcClass
  | .baseException => []
  | .exception => [.baseException]
  | .assertionError => [.exception, .baseException]
  | .unexpectedSuccessError => [.assertionError, .exception, .baseException]
  | .skipTest => [.exception, .baseException]
  | .other _ => [.exception, .baseException]

/-- `isSubclass c p`: `c` is `p` or derives from `p` (Python `issubclass`). -/
def ExcClass.isSubclass (c p : ExcClass) : Bool :=
  c == p || (ExcClass.ancestors c).contains p

/-- An exception instance: its class and its message. -/
structure Exc where
  cls : ExcClass
  msg : String
deriving DecidableEq

/-- The state of `vedro_unittest._test_result.TestResult`: the three custom
outcome buckets the adapter adds on top of `unittest.TestResult`. -/
structure TestResultState where
  exceptions : List (TestRef × Exc)
  expectedFailures : List (TestRef × Exc)
  unexpectedSuccesses : List (TestRef × Exc)
deriving DecidableEq

/-- A fresh collector, as built by `TestResult.__init__`. -/
def TestResultState.empty : TestResultState :=
  { exceptions := [], expectedFailures := [], unexpectedSuccesses := [] }

/-- `TestResult.addSuccess`: `pass` — records nothing. -/
def addSuccess (r : TestResultState) (_t : TestRef) : TestResultState := r

/-- `TestResult.addError`: append `(test, exception)` to the exceptions bucket
(`_get_exception` extracts the exception value from the `exc_info` triple;
here `e` already is that value). -/
def addError (r : TestResultState) (t : TestRef) (e : Exc) : TestResultState :=
  { r with exceptions := r.exceptions ++ [(t, e)] }

/-- `TestResult.addFailure`: append `(test, exception)` to the exceptions bucket. -/
def addFailure (r : TestResultState) (t : TestRef) (e : Exc) : TestResultState :=
  { r with exceptions := r.exceptions ++ [(t, e)] }

/-- `TestResult.addSkip`: append `(test, SkipTest(reason))` to the exceptions bucket. -/
def addSkip (r : TestResultState) (t : TestRef) (reason : String) : TestResultState :=
  { r with exceptions := r.exceptions ++ [(t, Exc.mk ExcClass.skipTest reason)] }

/-- `TestResult.addSubTest`: if `err` is not `None`, append `(subtest, exception)`
to the exceptions bucket; otherwise do nothing. -/
def addSubTest (r : TestResultState) (_t : TestRef) (sub : TestRef)
    (err : Option Exc) : TestResultState :=
  match err with
  | none => r
  | some e => { r with exceptions := r.exceptions ++ [(sub, e)] }

/-- `TestResult.addExpectedFailure`: append `(test, exception)` to the
expected-failures bucket. -/
def addExpectedFailure (r : TestResultState) (t : TestRef) (e : Exc) : TestResultState :=
  { r with expectedFailures := r.expectedFailures ++ [(t, e)] }

/-- The message `TestResult.addUnexpectedSuccess` builds its error with. -/
def unexpectedSuccessMessage : String := "Scenario passed, but expected to fail"

/-- `TestResult.addUnexpectedSuccess`: append
`(test, UnexpectedSuccessError("Scenario passed, but expected to fail"))`
to the unexpected-successes bucket. -/
def addUnexpectedSuccess (r : TestResultState) (t : TestRef) : TestResultState :=
  { r with unexpectedSuccesses :=
      r.unexpectedSuccesses ++ [(t, Exc.mk ExcClass.unexpectedSuccessError unexpectedSuccessMessage)] }

/-- One callback fired by the unittest engine at the collector during a run. -/
inductive TREvent where
  | success (t : TestRef)
  | error (t : TestRef) (e : Exc)
  | failure (t : TestRef) (e : Exc)
  | skipEv (t : TestRef) (reason : String)
  | subtest (t : TestRef) (sub : TestRef) (err : Option Exc)
  | expFailure (t : TestRef) (e : Exc)
  | unexpSuccess (t : TestRef)
deriving DecidableEq

/-- Dispatch one engine callback to the corresponding `TestResult` method. -/
def applyEvent (r : TestResultState) : TREvent → TestResultState
  | .success t => addSuccess r t
  | .error t e => addError r t e
  | .failure t e => addFailure r t e
  | .skipEv t reason => addSkip r t reason
  | .subtest t sub err => addSubTest r t sub err
  | .expFailure t e => addExpectedFailure r t e
  | .unexpSuccess t => addUnexpectedSuccess r t

/-- The collector state after a run that fired the given callbacks, in order,
on a fresh collector. -/
def runEvents (es : List TREvent) : TestResultState :=
  es.foldl applyEvent TestResultState.empty

/-- What a scenario body raises when the outcome translation terminates it:
nothing, a single exception, or an `ExceptionGroup` wrapping several. -/
inductive Raised where
  | nothing
  | single (e : Exc)
  | group (msg : String) (excs : List Exc)
deriving DecidableEq

/-- The observable effect of `UnitTestLoader._process_test_result`: what it
raises and which metadata attributes it set on the scenario type
(`__vedro_unittest_expected_failure__`, `__vedro_unittest_unexpected_success__`). -/
structure TranslationOutcome where
  raised : Raised
  expectedFailureMeta : Option Exc
  unexpectedSuccessMeta : Option Exc
deriving DecidableEq

/-- `UnitTestLoader._process_test_result`.  `raiseAsExcGroup` is
`self._raise_as_exc_group`, i.e. `sys.version_info >= (3, 11)`: whether the
host environment supports `ExceptionGroup`.

Mirrors the source line by line: a non-empty exceptions bucket raises (a group
of all recorded exceptions when allowed and more than one exists, else the
first) before any metadata is set; otherwise the expected-failure attribute is
set from the first expected failure if any, and then — independently — a
non-empty unexpected-successes bucket sets its attribute and raises its first
error. -/
def processTestResult (raiseAsExcGroup : Bool) (r : TestResultState) : TranslationOutcome :=
  match r.exceptions with
  | (_, e) :: _ =>
    if raiseAsExcGroup && r.exceptions.length > 1 then
      { raised := Raised.group "Multiple Unittest Exceptions" (r.exceptions.map Prod.snd),
        expectedFailureMeta := none,
        unexpectedSuccessMeta := none }
    else
      { raised := Raised.single e,
        expectedFailureMeta := none,
        unexpectedSuccessMeta := none }
  | [] =>
    let efMeta : Option Exc :=
      match r.expectedFailures with
      | [] => none
      | (_, ef) :: _ => some ef
    match r.unexpectedSuccesses with
    | [] =>
      { raised := Raised.nothing, expectedFailureMeta := efMeta, unexpectedSuccessMeta := none }
    | (_, us) :: _ =>
      { raised := Raised.single us, expectedFailureMeta := efMeta, unexpectedSuccessMeta := some us }

/-- `TestCaseLoader._process_test_result` (the legacy loader variant in
`_test_case_loader.py`): identical except that it always raises only the
first recorded exception, never an `ExceptionGroup`. -/
def processTestResultLegacy (r : TestResultState) : TranslationOutcome :=
  processTestResult false r

/-- One test method as discovered by the unittest `TestLoader`, together with
the `__unittest_skip__` / `__unittest_skip_why__` attributes found (if any)
on the bound method itself. -/
structure TestMethodInfo where
  name : String
  methodSkip : Option Bool
  methodSkipWhy : Option String
deriving DecidableEq

/-- One test-case class discovered in a module.  `setUpClassAttr` /
`tearDownClassAttr` are the identities of the objects that
`inspect.getattr_static` resolves for the hook names on the class (None only
if resolution finds nothing at all); `objSkip` / `objSkipWhy` are the skip
attributes `getattr` finds on a test instance of the class (instance lookup
falling back to the class, e.g. set by a class-level `@unittest.skip`);
`methods` are the discovered test methods, in the order the unittest loader
yields them. -/
structure TestClass where
  name : String
  setUpClassAttr : Option Nat
  tearDownClassAttr : Option Nat
  objSkip : Option Bool
  objSkipWhy : Option String
  methods : List TestMethodInfo
deriving DecidableEq

/-- Identity of the `setUpClass` object statically resolved on the base
`unittest.TestCase` type (which always defines it). -/
def baseSetUpClassAttr : Option Nat := some 0

/-- Identity of the `tearDownClass` object statically resolved on the base
`unittest.TestCase` type. -/
def baseTearDownClassAttr : Option Nat := some 1

/-- A loaded module: its `__name__`, absolute file path, whether truthy
`setUpModule` / `tearDownModule` attributes exist on the module object, and
its discovered test classes in the order the unittest loader yields their
suites. -/
structure TestModule where
  name : String
  file : String
  hasSetUpModule : Bool
  hasTearDownModule : Bool
  classes : List TestClass
deriving DecidableEq

/-- One instantiated test case (a method bound to a test object), as the
loader sees it after flattening suites. -/
structure TestCaseObj where
  className : String
  methodName : String
  methodSkip : Option Bool
  methodSkipWhy : Option String
  objSkip : Option Bool
  objSkipWhy : Option String
deriving DecidableEq

/-- The test instances the unittest loader builds for a class: one per
discovered method, carrying the method-level and object-level skip attributes. -/
def testsOfClass (c : TestClass) : List TestCaseObj :=
  c.methods.map (fun m =>
    { className := c.name, methodName := m.name,
      methodSkip := m.methodSkip, methodSkipWhy := m.methodSkipWhy,
      objSkip := c.objSkip, objSkipWhy := c.objSkipWhy })

/-- All test instances of a module, classes in order (the flattening
`_extract_tests_from_suite` performs on the module suite). -/
def allTests (m : TestModule) : List TestCaseObj :=
  m.classes.flatMap testsOfClass

/-- `is_method_overridden` / `UnitTestLoader._is_method_overridden`:
`getattr_static` results compared by identity; `False` when either side
resolves to nothing. -/
def isMethodOverridden (childAttr parentAttr : Option Nat) : Bool :=
  match childAttr, parentAttr with
  | some c, some p => c != p
  | _, _ => false

/-- `UnitTestLoader._has_class_setup_or_teardown`. -/
def hasClassSetupOrTeardown (c : TestClass) : Bool :=
  isMethodOverridden c.setUpClassAttr baseSetUpClassAttr ||
  isMethodOverridden c.tearDownClassAttr baseTearDownClassAttr

/-- `UnitTestLoader._has_module_setup_or_teardown`. -/
def hasModuleSetupOrTeardown (m : TestModule) : Bool :=
  m.hasSetUpModule || m.hasTearDownModule

/-- `UnitTestLoader._get_test_attr`: the attribute found on the bound test
method wins over the one found on the test object (or its class); the default
applies when neither defines it. -/
def getTestAttr {α : Type} (methodVal objVal : Option α) (dflt : α) : α :=
  match methodVal with
  | some v => v
  | none =>
    match objVal with
    | some v => v
    | none => dflt

/-- `__unittest_skip__` resolution for a single test case
(`_is_test_skipped`, `TestCase` branch, first component). -/
def isTestSkippedCase (t : TestCaseObj) : Bool :=
  getTestAttr t.methodSkip t.objSkip false

/-- `__unittest_skip_why__` resolution for a single test case
(`_is_test_skipped`, `TestCase` branch, second component). -/
def testSkipReason (t : TestCaseObj) : String :=
  getTestAttr t.methodSkipWhy t.objSkipWhy ""

/-- What `_build_vedro_scenario` receives: a single test case (per-method) or
a flattened suite (per-class / per-module). -/
inductive TestUnit where
  | case (t : TestCaseObj)
  | suite (ts : List TestCaseObj)
deriving DecidableEq

/-- The tests a unit wraps. -/
def TestUnit.testsOf : TestUnit → List TestCaseObj
  | .case t => [t]
  | .suite ts => ts

/-- `UnitTestLoader._is_test_skipped`: a lone test case resolves its own skip
attributes; a suite is skipped only when it has tests and every one of them
is skipped, with the fixed reason string. -/
def isTestSkippedUnit : TestUnit → Bool × String
  | .case t => (isTestSkippedCase t, testSkipReason t)
  | .suite ts =>
    if ts.isEmpty then (false, "")
    else if ts.all isTestSkippedCase then (true, "All tests are skipped")
    else (false, "")

/-- A produced Vedro scenario type, reduced to the observable attributes the
loader sets: class name, subject, `__file__`, the skip decoration (reason, if
`skip(...)` was applied), and the test unit its body runs. -/
structure ScenarioDesc where
  name : String
  subject : String
  file : String
  skip : Option String
  tests : List TestCaseObj
deriving DecidableEq

/-- `method_name.replace(\x27_\x27, \x27 \x27)`: every underscore becomes a
space (single-character pattern, so a character map is exact). -/
def replaceUnderscores (s : String) : String :=
  String.mk (s.data.map (fun c => if c = '_' then ' ' else c))

/-- `UnitTestLoader._build_vedro_scenario`: builds the scenario type and
applies the `skip` decorator when `_is_test_skipped` says so. -/
def buildVedroScenario (test : TestUnit) (path nm subj : String) : ScenarioDesc :=
  let sk := isTestSkippedUnit test
  { name := nm, subject := subj, file := path,
    skip := if sk.1 then some sk.2 else none,
    tests := test.testsOf }

/-- The per-method scenario built in the innermost loop of
`_collect_scenarios`. -/
def perMethodScenario (file : String) (t : TestCaseObj) : ScenarioDesc :=
  buildVedroScenario (TestUnit.case t) file
    ("Scenario_" ++ t.className ++ "_" ++ t.methodName)
    ("[" ++ t.className ++ "] " ++ replaceUnderscores t.methodName)

/-- The per-class scenario built when the class overrides a class hook. -/
def perClassScenario (file : String) (c : TestClass) : ScenarioDesc :=
  buildVedroScenario (TestUnit.suite (testsOfClass c)) file
    ("Scenario_" ++ c.name)
    ("All tests in class \x27" ++ c.name ++ "\x27")

/-- The single per-module scenario built when the module has a module hook. -/
def moduleScenario (m : TestModule) : ScenarioDesc :=
  buildVedroScenario (TestUnit.suite (allTests m)) m.file
    "Scenario_UnitTestSuite"
    ("All tests in module \x27" ++ m.name ++ "\x27")

/-- The scenarios one class suite contributes in the per-class loop of
`_collect_scenarios`: nothing for an empty suite (`countTestCases() == 0`),
one per-class scenario when a class hook is overridden, else one scenario per
test. -/
def classScenarios (file : String) (c : TestClass) : List ScenarioDesc :=
  if (testsOfClass c).length = 0 then []
  else if hasClassSetupOrTeardown c then [perClassScenario file c]
  else (testsOfClass c).map (perMethodScenario file)

/-- `UnitTestLoader._collect_scenarios`. -/
def collectScenarios (m : TestModule) : List ScenarioDesc :=
  if hasModuleSetupOrTeardown m then [moduleScenario m]
  else m.classes.flatMap (classScenarios m.file)

/-- What raising the first-recorded exception produces (nothing on an empty
bucket); used to state the outcome-translation claims. -/
def firstRaised (r : TestResultState) : Raised :=
  match r.exceptions with
  | [] => Raised.nothing
  | (_, e) :: _ => Raised.single e

/-- The spec-side collapse condition for a class, stated in the claim's own
words: the statically resolved `setUpClass` or `tearDownClass` attribute on
the class differs from the base test-case type's attribute.  Compared against
the source's `hasClassSetupOrTeardown`. -/
def specClassHookOverridden (c : TestClass) : Bool :=
  decide (c.setUpClassAttr ≠ baseSetUpClassAttr) ||
  decide (c.tearDownClassAttr ≠ baseTearDownClassAttr)

/-- The spec-side skip condition for a single test, in the claim's own words:
the bound test method, or the test object, carries a skip marker (a skip
attribute set to `True`). -/
def carriesSkipMarker (t : TestCaseObj) : Bool :=
  (t.methodSkip == some true) || (t.objSkip == some true)

/-! Concrete inputs used by witnesses and counterexamples.  Each mirrors a
module one can write verbatim against the real loader. -/

/-- A class with overridden `setUpClass` (resolved to an object other than the
base one) and two test methods. -/
def overrideClass : TestClass :=
  { name := "TestCaseWithSetup", setUpClassAttr := some 7,
    tearDownClassAttr := baseTearDownClassAttr,
    objSkip := none, objSkipWhy := none,
    methods := [{ name := "test_one", methodSkip := none, methodSkipWhy := none },
                { name := "test_two", methodSkip := none, methodSkipWhy := none }] }

/-- A plain class with two test methods and no hooks or markers. -/
def plainClass : TestClass :=
  { name := "TestCasePlain", setUpClassAttr := baseSetUpClassAttr,
    tearDownClassAttr := baseTearDownClassAttr,
    objSkip := none, objSkipWhy := none,
    methods := [{ name := "test_three", methodSkip := none, methodSkipWhy := none },
                { name := "test_four", methodSkip := none, methodSkipWhy := none }] }

/-- A module with a `tearDownModule` hook and two classes (one of which has
its own class hook): per the claim it must still collapse to one scenario. -/
def hookModule : TestModule :=
  { name := "scenario", file := "/tmp/scenario.py",
    hasSetUpModule := false, hasTearDownModule := true,
    classes := [overrideClass, plainClass] }

/-- A module with no module hooks holding the override class and the plain
class. -/
def mixedModule : TestModule :=
  { name := "scenario", file := "/tmp/scenario.py",
    hasSetUpModule := false, hasTearDownModule := false,
    classes := [overrideClass, plainClass] }

/-- A class decorated with a class-level `@unittest.skip("reason")` (the
instances inherit `__unittest_skip__ = True`), two test methods, no lifecycle
hooks. -/
def classSkipClass : TestClass :=
  { name := "TestCase", setUpClassAttr := baseSetUpClassAttr,
    tearDownClassAttr := baseTearDownClassAttr,
    objSkip := some true, objSkipWhy := some "reason",
    methods := [{ name := "test_smth1", methodSkip := none, methodSkipWhy := none },
                { name := "test_smth2", methodSkip := none, methodSkipWhy := none }] }

/-- The module holding only `classSkipClass`. -/
def classSkipModule : TestModule :=
  { name := "scenario", file := "/tmp/scenario.py",
    hasSetUpModule := false, hasTearDownModule := false,
    classes := [classSkipClass] }

/-- Two hook-free classes whose class/method names concatenate to the same
scenario name: class `A` with `test_test_x` and class `A_test` with `test_x`. -/
def collisionModule : TestModule :=
  { name := "scenario", file := "/tmp/scenario.py",
    hasSetUpModule := false, hasTearDownModule := false,
    classes :=
      [{ name := "A", setUpClassAttr := baseSetUpClassAttr,
         tearDownClassAttr := baseTearDownClassAttr,
         objSkip := none, objSkipWhy := none,
         methods := [{ name := "test_test_x", methodSkip := none, methodSkipWhy := none }] },
       { name := "A_test", setUpClassAttr := baseSetUpClassAttr,
         tearDownClassAttr := baseTearDownClassAttr,
         objSkip := none, objSkipWhy := none,
         methods := [{ name := "test_x", methodSkip := none, methodSkipWhy := none }] }] }

/-- The test instance of class `A` in `collisionModule`. -/
def collisionTestA : TestCaseObj :=
  { className := "A", methodName := "test_test_x",
    methodSkip := none, methodSkipWhy := none, objSkip := none, objSkipWhy := none }

/-- A module that defines `setUpModule` but no test classes: the loader still
returns one per-module scenario, wrapping zero tests. -/
def emptyHookModule : TestModule :=
  { name := "scenario", file := "/tmp/scenario.py",
    hasSetUpModule := true, hasTearDownModule := false, classes := [] }

/-- A collector state holding two recorded exceptions (e.g. two failing
subtests of one method). -/
def twoExcResult : TestResultState :=
  { exceptions := [("TestCase.test_a", Exc.mk ExcClass.assertionError "first"),
                   ("TestCase.test_b", Exc.mk (ExcClass.other "ValueError") "second")],
    expectedFailures := [], unexpectedSuccesses := [] }

/-- A collector state from a suite in which one expected-failure test failed
(as expected) and another expected-failure test passed: both bookkeeping
buckets are non-empty while no plain exception was recorded. -/
def bothBucketsResult : TestResultState :=
  { exceptions := [],
    expectedFailures := [("TestCase.test_ef", Exc.mk ExcClass.assertionError "boom")],
    unexpectedSuccesses :=
      [("TestCase.test_us", Exc.mk ExcClass.unexpectedSuccessError unexpectedSuccessMessage)] }

/-- A test case whose bound method carries a skip marker with its own reason
while the test object carries a conflicting value and another reason. -/
def methodAttrTest : TestCaseObj :=
  { className := "TestCase", methodName := "test_smth",
    methodSkip := some true, methodSkipWhy := some "method reason",
    objSkip := some false, objSkipWhy := some "class reason" }

/-- A run firing exactly one unexpected-success callback. -/
def usEvents : List TREvent := [TREvent.unexpSuccess "TestCase.test_us"]

/-- A test instance of `classSkipClass`: no method-level attributes, the
class-level marker reaches it through the object lookup. -/
def skipMarkedTest : TestCaseObj :=
  { className := "TestCase", methodName := "test_smth1",
    methodSkip := none, methodSkipWhy := none,
    objSkip := some true, objSkipWhy := some "reason" }

/-! ## Helper lemmas -/

/-- With both hook attributes actually resolvable on the class (as they always
are for a subclass of the base test-case type, which defines both), the
source's `_has_class_setup_or_teardown` check coincides with the spec's
"statically resolved attribute differs from the base type's" condition. -/
theorem hasClassHook_eq_spec (c : TestClass)
    (hsu : c.setUpClassAttr.isSome) (htd : c.tearDownClassAttr.isSome) :
    hasClassSetupOrTeardown c = specClassHookOverridden c := by
  obtain ⟨a, ha⟩ := Option.isSome_iff_exists.mp hsu
  obtain ⟨b, hb⟩ := Option.isSome_iff_exists.mp htd
  unfold hasClassSetupOrTeardown specClassHookOverridden isMethodOverridden
  unfold baseSetUpClassAttr baseTearDownClassAttr
  rw [ha, hb]
  rcases eq_or_ne a 0 with h0 | h0 <;> rcases eq_or_ne b 1 with h1 | h1 <;>
    simp [h0, h1]

/-- When neither skip attribute is literally `False` (the unittest skip
decorators only ever set `True`), the source's resolved skip flag agrees with
"the method or the test object carries a skip marker". -/
theorem isTestSkippedCase_eq_marker (t : TestCaseObj)
    (hm : t.methodSkip ≠ some false) (ho : t.objSkip ≠ some false) :
    isTestSkippedCase t = carriesSkipMarker t := by
  rcases t with ⟨cn, mn, ms, mw, os, ow⟩
  dsimp [isTestSkippedCase, carriesSkipMarker, getTestAttr] at *
  rcases ms with _ | b
  · rcases os with _ | b2
    · rfl
    · cases b2 <;> simp_all
  · cases b <;> simp_all

/-- Suite-level skip resolution, restated over the marker predicate: a suite
is skipped exactly when it is non-empty and every test carries a marker. -/
theorem suite_skip_eq (ts : List TestCaseObj)
    (hts : ∀ u ∈ ts, u.methodSkip ≠ some false ∧ u.objSkip ≠ some false) :
    isTestSkippedUnit (TestUnit.suite ts) =
      (if ts ≠ [] ∧ (∀ u ∈ ts, carriesSkipMarker u) then (true, "All tests are skipped")
       else (false, "")) := by
  unfold isTestSkippedUnit
  by_cases hempty : ts = []
  · subst hempty; simp
  · have hall : (ts.all isTestSkippedCase = true) ↔ (∀ u ∈ ts, carriesSkipMarker u = true) := by
      rw [List.all_eq_true]
      constructor
      · intro h u hu
        rw [← isTestSkippedCase_eq_marker u (hts u hu).1 (hts u hu).2]
        exact h u hu
      · intro h u hu
        rw [isTestSkippedCase_eq_marker u (hts u hu).1 (hts u hu).2]
        exact h u hu
    by_cases hsk : ts.all isTestSkippedCase
    · simp [hempty, hsk]
      rw [if_pos (hall.mp hsk)]
    · have hnot : ¬ (∀ u ∈ ts, carriesSkipMarker u = true) := fun hh => hsk (hall.mpr hh)
      simp [hempty, hsk, hnot]

/-- Skip decoration of a per-method scenario, over the marker predicate. -/
theorem build_skip_case (file nm subj : String) (t : TestCaseObj)
    (hm : t.methodSkip ≠ some false) (ho : t.objSkip ≠ some false) :
    (buildVedroScenario (TestUnit.case t) file nm subj).skip =
      if carriesSkipMarker t then some (testSkipReason t) else none := by
  unfold buildVedroScenario isTestSkippedUnit
  dsimp
  rw [isTestSkippedCase_eq_marker t hm ho]

/-- Skip decoration of a suite-backed scenario, over the marker predicate. -/
theorem build_skip_suite (file nm subj : String) (ts : List TestCaseObj)
    (hts : ∀ u ∈ ts, u.methodSkip ≠ some false ∧ u.objSkip ≠ some false) :
    (buildVedroScenario (TestUnit.suite ts) file nm subj).skip =
      if ts ≠ [] ∧ (∀ u ∈ ts, carriesSkipMarker u) then some "All tests are skipped"
      else none := by
  unfold buildVedroScenario
  rw [suite_skip_eq ts hts]
  by_cases hA : ts ≠ [] ∧ (∀ u ∈ ts, carriesSkipMarker u = true)
  · simp [if_pos hA]
  · simp [if_neg hA]

/-- Every entry ever appended to the unexpected-successes bucket is the
canonical `UnexpectedSuccessError` with the fixed message. -/
theorem foldl_us_canonical (es : List TREvent) (r : TestResultState)
    (h : ∀ p ∈ r.unexpectedSuccesses,
      p.2 = Exc.mk ExcClass.unexpectedSuccessError unexpectedSuccessMessage) :
    ∀ p ∈ (es.foldl applyEvent r).unexpectedSuccesses,
      p.2 = Exc.mk ExcClass.unexpectedSuccessError unexpectedSuccessMessage := by
  induction es generalizing r with
  | nil => exact h
  | cons ev rest ih =>
    refine ih (applyEvent r ev) ?_
    cases ev with
    | success t => exact h
    | error t e => exact h
    | failure t e => exact h
    | skipEv t reason => exact h
    | subtest t sub err =>
      cases err with
      | none => exact h
      | some e => exact h
    | expFailure t e => exact h
    | unexpSuccess t =>
      intro p hp
      simp [applyEvent, addUnexpectedSuccess] at hp
      rcases hp with hp | hp
      · exact h p hp
      · rw [hp]

/-! ## Claim theorems -/

/-- Claim C1: whenever the loaded module has a (truthy) `setUpModule` or
`tearDownModule` attribute, the loader returns exactly one scenario, and that
scenario wraps the entire module test suite — regardless of how many classes
or methods the module contains and regardless of any class-level hooks. -/
theorem loader_module_hook_yields_single_scenario (m : TestModule)
    (h : hasModuleSetupOrTeardown m = true) :
    collectScenarios m = [moduleScenario m] ∧
    (moduleScenario m).tests = allTests m := by
  refine ⟨?_, rfl⟩
  simp [collectScenarios, h]

/-- Witness for C1: a module with a `tearDownModule` hook, one class with its
own class hook and one plain class still collapses to a single scenario. -/
theorem loader_module_hook_yields_single_scenario_witness :
    hasModuleSetupOrTeardown hookModule = true ∧
    collectScenarios hookModule = [moduleScenario hookModule] :=
  ⟨by decide, (loader_module_hook_yields_single_scenario hookModule (by decide)).1⟩

/-- Claim C2: in a module without module hooks, each discovered non-empty
class contributes exactly one per-class scenario wrapping the whole class if
and only if its statically resolved `setUpClass` or `tearDownClass` attribute
differs from the base test-case type's attribute, and otherwise one scenario
per test method; the per-class loop of the loader is exactly the
concatenation of these contributions. -/
theorem loader_collapses_class_iff_hook_overridden (m : TestModule) (c : TestClass)
    (hmod : hasModuleSetupOrTeardown m = false)
    (_hc : c ∈ m.classes)
    (hsu : c.setUpClassAttr.isSome) (htd : c.tearDownClassAttr.isSome)
    (hne : c.methods ≠ []) :
    collectScenarios m = m.classes.flatMap (classScenarios m.file) ∧
    classScenarios m.file c =
      (if specClassHookOverridden c then [perClassScenario m.file c]
       else (testsOfClass c).map (perMethodScenario m.file)) := by
  refine ⟨by simp [collectScenarios, hmod], ?_⟩
  unfold classScenarios
  rw [hasClassHook_eq_spec c hsu htd]
  have hlen : (testsOfClass c).length ≠ 0 := by
    simp only [testsOfClass, List.length_map]
    intro h
    exact hne (List.length_eq_zero.mp h)
  simp [hlen]

/-- Witness for C2: in `mixedModule`, the class overriding `setUpClass`
collapses to one scenario while the plain class yields one scenario per
method. -/
theorem loader_collapses_class_iff_hook_overridden_witness :
    collectScenarios mixedModule = mixedModule.classes.flatMap (classScenarios mixedModule.file) ∧
    classScenarios mixedModule.file overrideClass =
      [perClassScenario mixedModule.file overrideClass] ∧
    classScenarios mixedModule.file plainClass =
      (testsOfClass plainClass).map (perMethodScenario mixedModule.file) := by
  have h1 := loader_collapses_class_iff_hook_overridden mixedModule overrideClass
    (by decide) (by decide) (by decide) (by decide) (by decide)
  have h2 := loader_collapses_class_iff_hook_overridden mixedModule plainClass
    (by decide) (by decide) (by decide) (by decide) (by decide)
  exact ⟨h1.1, h1.2.trans (by decide), h2.2.trans (by decide)⟩

/-- Claim C3: with a non-empty exceptions bucket the outcome translation of
the loader raises — an `ExceptionGroup` wrapping all recorded exceptions in
encounter order when more than one was recorded and the environment supports
it, else exactly the first-recorded exception — and the body terminates there
(no expected-failure or unexpected-success metadata is attached). -/
theorem outcome_translation_raises_on_exceptions (flag : Bool) (r : TestResultState)
    (h : r.exceptions ≠ []) :
    (processTestResult flag r).expectedFailureMeta = none ∧
    (processTestResult flag r).unexpectedSuccessMeta = none ∧
    (processTestResult flag r).raised =
      (if flag && decide (r.exceptions.length > 1)
       then Raised.group "Multiple Unittest Exceptions" (r.exceptions.map Prod.snd)
       else firstRaised r) := by
  cases hr : r.exceptions with
  | nil => exact absurd hr h
  | cons p rest =>
    obtain ⟨t, e⟩ := p
    simp [processTestResult, firstRaised, hr]
    split <;> simp

/-- Witness for C3: two recorded exceptions on a group-capable host raise the
aggregate of both, in order. -/
theorem outcome_translation_raises_on_exceptions_witness :
    (processTestResult true twoExcResult).raised =
      Raised.group "Multiple Unittest Exceptions"
        [Exc.mk ExcClass.assertionError "first", Exc.mk (ExcClass.other "ValueError") "second"] ∧
    (processTestResult true twoExcResult).expectedFailureMeta = none := by
  have h := outcome_translation_raises_on_exceptions true twoExcResult (by decide)
  exact ⟨h.2.2.trans (by decide), h.1⟩

/-- Counterexample to C4 as stated: when no plain exception was recorded but
both the expected-failures and the unexpected-successes buckets are non-empty
(one expected-failure test failed as expected, another passed unexpectedly),
the claimed "else if" chain would stop after attaching the expected-failure
metadata and complete normally — but the code also runs the
unexpected-success branch and raises. -/
theorem outcome_translation_chain_cex :
    (processTestResult true bothBucketsResult).expectedFailureMeta =
      some (Exc.mk ExcClass.assertionError "boom") ∧
    (processTestResult true bothBucketsResult).raised =
      Raised.single (Exc.mk ExcClass.unexpectedSuccessError unexpectedSuccessMessage) ∧
    (processTestResult true bothBucketsResult).raised ≠ Raised.nothing := by decide

/-- Claim C4, amended: the translation checks are sequential but the last two
are independent, not exclusive.  If any exceptions were recorded it raises
and attaches nothing.  Otherwise the first expected failure (if any) is
attached as metadata; then — regardless of that — if unexpected successes
were recorded, their first error is attached as metadata and raised; the body
returns normally exactly when both buckets are empty. -/
theorem outcome_translation_chain_amended (flag : Bool) (r : TestResultState) :
    (r.exceptions ≠ [] →
      (processTestResult flag r).raised ≠ Raised.nothing ∧
      (processTestResult flag r).expectedFailureMeta = none ∧
      (processTestResult flag r).unexpectedSuccessMeta = none) ∧
    (r.exceptions = [] →
      (processTestResult flag r).expectedFailureMeta = (r.expectedFailures.head?).map Prod.snd ∧
      (processTestResult flag r).unexpectedSuccessMeta = (r.unexpectedSuccesses.head?).map Prod.snd ∧
      (processTestResult flag r).raised =
        (match r.unexpectedSuccesses.head? with
         | none => Raised.nothing
         | some p => Raised.single p.2)) := by
  constructor
  · intro h
    cases hr : r.exceptions with
    | nil => exact absurd hr h
    | cons p rest =>
      obtain ⟨t, e⟩ := p
      simp [processTestResult, hr]
      split <;> simp
  · intro h
    cases hus : r.unexpectedSuccesses with
    | nil => cases hef : r.expectedFailures <;> simp [processTestResult, h, hus, hef]
    | cons q rest2 =>
      obtain ⟨t2, u⟩ := q
      cases hef : r.expectedFailures <;> simp [processTestResult, h, hus, hef]

/-- Witness for the amended C4 at the double-bucket state. -/
theorem outcome_translation_chain_amended_witness :
    (processTestResult true bothBucketsResult).expectedFailureMeta =
      some (Exc.mk ExcClass.assertionError "boom") := by
  have h := (outcome_translation_chain_amended true bothBucketsResult).2 rfl
  exact h.1.trans (by decide)

/-- Counterexample to C5 as stated: scenario names are not unique within a
module's scenario set.  Class `A` with method `test_test_x` and class
`A_test` with method `test_x` (both hook-free) both produce the name
`Scenario_A_test_test_x`. -/
theorem scenario_name_uniqueness_cex :
    (collectScenarios collisionModule).map (fun s => s.name) =
      ["Scenario_A_test_test_x", "Scenario_A_test_test_x"] ∧
    ¬ List.Nodup ((collectScenarios collisionModule).map (fun s => s.name)) :=
  ⟨by decide, by decide⟩

/-- Claim C5, amended: every scenario's name and subject are derived
deterministically in the stated formats — the fixed `Scenario_UnitTestSuite`
with the module subject when a module hook is present, else per class either
`Scenario_<ClassName>` with the class subject or
`Scenario_<ClassName>_<MethodName>` with the bracketed method subject
(underscores as spaces) — but the derived names are not guaranteed unique,
since distinct class/method pairs can concatenate to the same string. -/
theorem scenario_naming_amended (m : TestModule) :
    (hasModuleSetupOrTeardown m = true →
      (collectScenarios m).map (fun s => (s.name, s.subject)) =
        [("Scenario_UnitTestSuite", "All tests in module \x27" ++ m.name ++ "\x27")]) ∧
    (hasModuleSetupOrTeardown m = false →
      ∀ s ∈ collectScenarios m, ∃ c ∈ m.classes,
        (s.name = "Scenario_" ++ c.name ∧
         s.subject = "All tests in class \x27" ++ c.name ++ "\x27") ∨
        (∃ t ∈ c.methods,
          s.name = "Scenario_" ++ c.name ++ "_" ++ t.name ∧
          s.subject = "[" ++ c.name ++ "] " ++ replaceUnderscores t.name)) := by
  constructor
  · intro h
    simp [collectScenarios, h, moduleScenario, buildVedroScenario]
  · intro h s hs
    simp [collectScenarios, h] at hs
    obtain ⟨c, hc, hsc⟩ := hs
    refine ⟨c, hc, ?_⟩
    unfold classScenarios at hsc
    by_cases hlen : (testsOfClass c).length = 0
    · simp [hlen] at hsc
    · rw [if_neg hlen] at hsc
      by_cases hhook : hasClassSetupOrTeardown c
      · rw [if_pos hhook] at hsc
        simp at hsc
        subst hsc
        left
        exact ⟨rfl, rfl⟩
      · rw [if_neg (by simpa using hhook)] at hsc
        simp [testsOfClass] at hsc
        obtain ⟨meth, hmeth, hsm⟩ := hsc
        right
        refine ⟨meth, hmeth, ?_⟩
        subst hsm
        exact ⟨rfl, rfl⟩

/-- Witness for the amended C5 at one of the colliding per-method scenarios. -/
theorem scenario_naming_amended_witness :
    ∃ c ∈ collisionModule.classes,
      ((perMethodScenario "/tmp/scenario.py" collisionTestA).name = "Scenario_" ++ c.name ∧
       (perMethodScenario "/tmp/scenario.py" collisionTestA).subject =
         "All tests in class \x27" ++ c.name ++ "\x27") ∨
      (∃ t ∈ c.methods,
        (perMethodScenario "/tmp/scenario.py" collisionTestA).name =
          "Scenario_" ++ c.name ++ "_" ++ t.name ∧
        (perMethodScenario "/tmp/scenario.py" collisionTestA).subject =
          "[" ++ c.name ++ "] " ++ replaceUnderscores t.name) :=
  (scenario_naming_amended collisionModule).2 (by decide)
    (perMethodScenario "/tmp/scenario.py" collisionTestA) (by decide)

/-- Counterexample to C6 as stated: a module defining `setUpModule` but
containing no tests yields one per-module scenario whose contained method set
is empty — so "ALL contained test methods are skip-marked" holds vacuously —
yet the scenario is not marked skipped. -/
theorem suite_skip_resolution_cex :
    collectScenarios emptyHookModule = [moduleScenario emptyHookModule] ∧
    (moduleScenario emptyHookModule).tests.all carriesSkipMarker = true ∧
    (moduleScenario emptyHookModule).skip = none := by decide

/-- Claim C6, amended: assuming skip attributes are only ever set to `True`
(as the unittest skip decorators do), a per-method scenario is skipped iff
the bound method or the test object carries a skip marker, with the resolved
reason preserved verbatim (empty string when absent); a per-class or
per-module scenario is skipped iff it contains at least one test method and
all contained test methods carry skip markers, and then its reason is the
fixed phrase. -/
theorem skip_resolution_amended (file : String) (t : TestCaseObj) (c : TestClass)
    (m : TestModule)
    (hm : t.methodSkip ≠ some false) (ho : t.objSkip ≠ some false)
    (hcls : ∀ u ∈ testsOfClass c, u.methodSkip ≠ some false ∧ u.objSkip ≠ some false)
    (hmod : ∀ u ∈ allTests m, u.methodSkip ≠ some false ∧ u.objSkip ≠ some false) :
    ((perMethodScenario file t).skip =
      if carriesSkipMarker t then some (testSkipReason t) else none) ∧
    ((perClassScenario file c).skip =
      if testsOfClass c ≠ [] ∧ (∀ u ∈ testsOfClass c, carriesSkipMarker u)
      then some "All tests are skipped" else none) ∧
    ((moduleScenario m).skip =
      if allTests m ≠ [] ∧ (∀ u ∈ allTests m, carriesSkipMarker u)
      then some "All tests are skipped" else none) :=
  ⟨build_skip_case _ _ _ t hm ho,
   build_skip_suite _ _ _ _ hcls,
   build_skip_suite _ _ _ _ hmod⟩

/-- Witness for the amended C6: a class-level marker skips the per-method
scenario with its own reason, and skips the per-class scenario (all methods
marked) with the fixed phrase. -/
theorem skip_resolution_amended_witness :
    (perMethodScenario "/tmp/scenario.py" skipMarkedTest).skip = some "reason" ∧
    (perClassScenario "/tmp/scenario.py" classSkipClass).skip = some "All tests are skipped" := by
  have h := skip_resolution_amended "/tmp/scenario.py" skipMarkedTest classSkipClass
    classSkipModule (by decide) (by decide) (by decide) (by decide)
  exact ⟨h.1.trans (by decide), h.2.1.trans (by decide)⟩

/-- Counterexample to C7 as stated: for a module whose single test class is
decorated with a class-level skip marker, has two test methods and no
lifecycle hooks, the loader returns two scenarios, not one. -/
theorem class_skip_collapse_cex :
    (collectScenarios classSkipModule).length = 2 ∧
    (collectScenarios classSkipModule).map (fun s => s.skip) =
      [some "reason", some "reason"] := by decide

/-- Claim C7, amended: a class-level skip marker does not collapse the class
(only overridden class hooks do); the loader returns one per-method scenario
per test method — here two — each marked skipped with the class marker's
reason. -/
theorem class_skip_two_scenarios_amended :
    (collectScenarios classSkipModule).map (fun s => (s.name, s.skip)) =
      [("Scenario_TestCase_test_smth1", some "reason"),
       ("Scenario_TestCase_test_smth2", some "reason")] := by decide

/-- Claim C8: the collector classifies every engine callback as specified —
success records nothing; error and failure append the unit and exception to
the exceptions bucket; skip appends a `SkipTest` carrying the reason to the
exceptions bucket; a subtest callback appends exactly when its exception info
is non-null; expected failures and unexpected successes go to their own
buckets, the latter as the canonical `UnexpectedSuccessError`. -/
theorem result_collector_classification :
    (∀ r t, addSuccess r t = r) ∧
    (∀ r t e, addError r t e = { r with exceptions := r.exceptions ++ [(t, e)] }) ∧
    (∀ r t e, addFailure r t e = { r with exceptions := r.exceptions ++ [(t, e)] }) ∧
    (∀ r t reason, addSkip r t reason =
      { r with exceptions := r.exceptions ++ [(t, Exc.mk ExcClass.skipTest reason)] }) ∧
    (∀ r t s, addSubTest r t s none = r) ∧
    (∀ r t s e, addSubTest r t s (some e) = { r with exceptions := r.exceptions ++ [(s, e)] }) ∧
    (∀ r t e, addExpectedFailure r t e =
      { r with expectedFailures := r.expectedFailures ++ [(t, e)] }) ∧
    (∀ r t, addUnexpectedSuccess r t =
      { r with unexpectedSuccesses :=
          r.unexpectedSuccesses ++ [(t, Exc.mk ExcClass.unexpectedSuccessError unexpectedSuccessMessage)] }) :=
  ⟨fun _ _ => rfl, fun _ _ _ => rfl, fun _ _ _ => rfl, fun _ _ _ => rfl,
   fun _ _ _ => rfl, fun _ _ _ _ => rfl, fun _ _ _ => rfl, fun _ _ => rfl⟩

/-- Claim C9: `UnexpectedSuccessError` is a subclass of `AssertionError`;
every recorded unexpected success carries the fixed message, and whenever a
scenario body raises because of an unexpected success (no plain exceptions
recorded), the raised exception is assertion-failure-typed with that
message — for any sequence of engine callbacks. -/
theorem unexpected_success_is_assertion_typed (es : List TREvent) (flag : Bool) :
    ExcClass.isSubclass ExcClass.unexpectedSuccessError ExcClass.assertionError = true ∧
    (∀ p ∈ (runEvents es).unexpectedSuccesses,
      p.2 = Exc.mk ExcClass.unexpectedSuccessError unexpectedSuccessMessage) ∧
    ((runEvents es).exceptions = [] → ∀ e : Exc,
      (processTestResult flag (runEvents es)).raised = Raised.single e →
      ExcClass.isSubclass e.cls ExcClass.assertionError = true ∧
      e.msg = unexpectedSuccessMessage) := by
  have hinv : ∀ p ∈ (runEvents es).unexpectedSuccesses,
      p.2 = Exc.mk ExcClass.unexpectedSuccessError unexpectedSuccessMessage :=
    foldl_us_canonical es TestResultState.empty
      (by intro p hp; simp [TestResultState.empty] at hp)
  refine ⟨by decide, hinv, ?_⟩
  intro hexc e he
  cases hus : (runEvents es).unexpectedSuccesses with
  | nil =>
    simp [processTestResult, hexc, hus] at he
  | cons q rest =>
    obtain ⟨t, u⟩ := q
    simp [processTestResult, hexc, hus] at he
    have hu : u = Exc.mk ExcClass.unexpectedSuccessError unexpectedSuccessMessage := by
      have := hinv (t, u) (by rw [hus]; exact List.mem_cons_self _ _)
      simpa using this
    rw [← he, hu]
    exact ⟨by decide, rfl⟩

/-- Witness for C9 at a run firing exactly one unexpected-success callback. -/
theorem unexpected_success_is_assertion_typed_witness :
    ExcClass.isSubclass (Exc.mk ExcClass.unexpectedSuccessError unexpectedSuccessMessage).cls
      ExcClass.assertionError = true ∧
    (Exc.mk ExcClass.unexpectedSuccessError unexpectedSuccessMessage).msg =
      unexpectedSuccessMessage :=
  (unexpected_success_is_assertion_typed usEvents false).2.2 (by decide)
    (Exc.mk ExcClass.unexpectedSuccessError unexpectedSuccessMessage) (by decide)

/-- Claim C10: when resolving a skip attribute, a value on the bound test
method always wins over one on the test object (or its class), for both the
skip flag and the reason, and the defaults (`False`, empty string) apply only
when neither defines the attribute. -/
theorem test_attr_method_precedence :
    (∀ (t : TestCaseObj) (b : Bool), t.methodSkip = some b → isTestSkippedCase t = b) ∧
    (∀ (t : TestCaseObj) (s : String), t.methodSkipWhy = some s → testSkipReason t = s) ∧
    (∀ (t : TestCaseObj) (b : Bool), t.methodSkip = none → t.objSkip = some b →
      isTestSkippedCase t = b) ∧
    (∀ (t : TestCaseObj) (s : String), t.methodSkipWhy = none → t.objSkipWhy = some s →
      testSkipReason t = s) ∧
    (∀ t : TestCaseObj, t.methodSkip = none → t.objSkip = none → isTestSkippedCase t = false) ∧
    (∀ t : TestCaseObj, t.methodSkipWhy = none → t.objSkipWhy = none → testSkipReason t = "") := by
  refine ⟨?_, ?_, ?_, ?_, ?_, ?_⟩ <;> intro t
  · intro b h; simp [isTestSkippedCase, getTestAttr, h]
  · intro s h; simp [testSkipReason, getTestAttr, h]
  · intro b h1 h2; simp [isTestSkippedCase, getTestAttr, h1, h2]
  · intro s h1 h2; simp [testSkipReason, getTestAttr, h1, h2]
  · intro h1 h2; simp [isTestSkippedCase, getTestAttr, h1, h2]
  · intro h1 h2; simp [testSkipReason, getTestAttr, h1, h2]

/-- Witness for C10: a method-level marker and reason override conflicting
object-level values. -/
theorem test_attr_method_precedence_witness :
    isTestSkippedCase methodAttrTest = true ∧ testSkipReason methodAttrTest = "method reason" :=
  ⟨test_attr_method_precedence.1 methodAttrTest true rfl,
   test_attr_method_precedence.2.1 methodAttrTest "method reason" rfl⟩
